import Mathlib

/-!
Verification development for the routing-and-dispatch pipeline of the
Agentic-Ai repository (`multi_agent_autogen.py`, `app.py`, `utils/utility.py`).

The Python source is shallowly embedded below.  External collaborators
(the language-model executor, the Azure document-analysis service and the
plain-text extractor) are passed in as oracle functions, mirroring the
spec's treatment of them as opaque calls.  Python exceptions are modelled
with `Except PyErr`; Python dicts with ordered association lists whose
assignment operation (`dictInsert`) keeps the original key position on
overwrite, exactly like a Python `dict`.

Because Lean's built-in `String.trim`/`toLower`/`replace` are compiled by
well-founded recursion and do not reduce in the kernel, the corresponding
Python string methods are embedded as structurally recursive functions
over `String.data` (`pyStrip`, `pyLower`, `pyReplaceNl`, `strContains`);
they implement the same ASCII semantics the source relies on.
-/

/-! ## Python string primitives -/

/-- Python `str.lower()` (ASCII range, which is all the source compares). -/
def pyLower (s : String) : String := ⟨s.data.map Char.toLower⟩

/-- Python `str.strip()`: drop whitespace from both ends. -/
def pyStrip (s : String) : String :=
  ⟨((s.data.dropWhile Char.isWhitespace).reverse.dropWhile Char.isWhitespace).reverse⟩

/-- Substring occurrence on character lists (Python's `pat in s`). -/
def charsContain (pat : List Char) : List Char → Bool
  | [] => pat.isEmpty
  | c :: rest => pat.isPrefixOf (c :: rest) || charsContain pat rest

/-- Python `pat in s` for strings. -/
def strContains (s pat : String) : Bool := charsContain pat.data s.data

/-- Replace every occurrence of a single character by a string.  The source
only ever calls `str.replace` with the one-character pattern `"\n"`. -/
def pyReplaceChar (target : Char) (rep : List Char) : List Char → List Char
  | [] => []
  | c :: rest =>
    if c = target then rep ++ pyReplaceChar target rep rest
    else c :: pyReplaceChar target rep rest

/-- Python `s.replace("\n", rep)`. -/
def pyReplaceNl (s : String) (rep : String) : String := ⟨pyReplaceChar '\n' rep.data s.data⟩

/-- The characters after the last dot: Python `filename.rsplit(".", 1)[1]`
(used only under a guard that a dot is present). -/
def afterLastDot (s : String) : String :=
  ⟨(s.data.reverse.takeWhile (fun c => c ≠ '.')).reverse⟩

/-- Python `str.isidentifier()` restricted to ASCII: nonempty, first
character a letter or underscore, the rest letters, digits or underscores. -/
def pyIsIdentifier (s : String) : Bool :=
  match s.data with
  | [] => false
  | c :: rest => (c.isAlpha || c = '_') && rest.all (fun d => d.isAlphanum || d = '_')

/-! ## Python dict on association lists -/

/-- First-match lookup, Python `d.get(k)`. -/
def pyGet (k : String) : List (String × α) → Option α
  | [] => none
  | p :: rest => if p.1 = k then some p.2 else pyGet k rest

/-- Python `d[k] = v`: overwrite in place when the key exists (keeping its
position, as Python dicts do), otherwise append. -/
def dictInsert (k : String) (v : α) : List (String × α) → List (String × α)
  | [] => [(k, v)]
  | p :: rest => if p.1 = k then (k, v) :: rest else p :: dictInsert k v rest

/-! ## Data model -/

/-- A row of the Azure `AgentsTable` store, as `load_agents_from_db` reads
it.  `partitionKey` is `none` when the row has no `PartitionKey` column
(`ent.get("PartitionKey")` then returns `None`); `rowKey` is always present
on an Azure table entity. -/
structure TableEntity where
  partitionKey : Option String := none
  rowKey : String
  prompt : Option String := none
  model : Option String := none
  agent_type : Option String := none
deriving Repr, DecidableEq

/-- The per-agent record built by `load_agents_from_db`. -/
structure AgentMeta where
  name : String
  prompt : String
  model : String
  agent_type : String
deriving Repr, DecidableEq

/-- The dict `run_pipeline` (and the web layer) returns.  A field is `none`
when the corresponding key is absent from the Python dict; the web layer
reads absent keys with `dict.get` defaults. -/
structure PipelineResult where
  status : String
  message : Option String := none
  agent : Option String := none
  output : Option String := none
  needs_confirmation : Option Bool := none
deriving Repr, DecidableEq

/-- Python exceptions the embedded code can raise. -/
inductive PyErr where
  | keyError (key : String)
  | nameError (name : String)
  | attributeError (msg : String)
deriving Repr, DecidableEq

/-- Equality of embedded outcomes is decidable (needed to evaluate the
pipeline on concrete inputs). -/
instance exceptDecEq {ε α : Type} [DecidableEq ε] [DecidableEq α] : DecidableEq (Except ε α)
  | .ok a, .ok b =>
    if h : a = b then .isTrue (by rw [h]) else .isFalse (by simp [h])
  | .ok _, .error _ => .isFalse (by simp)
  | .error _, .ok _ => .isFalse (by simp)
  | .error a, .error b =>
    if h : a = b then .isTrue (by rw [h]) else .isFalse (by simp [h])

/-- Python `str(e)` for the exceptions above (`str` of a `KeyError` is the
`repr` of the missing key). -/
def pyErrMessage : PyErr → String
  | .keyError k => "'" ++ k ++ "'"
  | .nameError n => "name '" ++ n ++ "' is not defined"
  | .attributeError m => m

/-! ### Azure Document Intelligence result shape (the part `fetch_results` reads) -/

/-- A scalar sub-field of a line item: only `.content` is read. -/
structure ItemField where
  content : String
deriving Repr, DecidableEq

/-- One line item: its `.value` is a dict from sub-field name to field. -/
structure DIItem where
  value : List (String × ItemField)
deriving Repr, DecidableEq

/-- A named document field: `.content` is its text; `itemsValue` is its
`.value` when the field is the `"Items"` list (and meaningless otherwise). -/
structure DIField where
  content : String
  itemsValue : Option (List DIItem) := none
deriving Repr, DecidableEq

/-- One analyzed document: a dict of named fields. -/
structure DIDocument where
  fields : List (String × DIField)
deriving Repr, DecidableEq

/-- The analysis result: `results.documents`. -/
structure DIResult where
  documents : List DIDocument
deriving Repr, DecidableEq

/-- The external collaborators, passed as oracles: the model executor
(`generate_reply`, keyed by system message and user content), the document
analysis client (`begin_analyze_document(...).result()`, `none` modelling a
null result), and the plain-text extractor `extract_text_from_file`. -/
structure Collaborators where
  llm : String → String → String
  analyze : List Nat → String → Option DIResult
  extract_text : List Nat → String → String

/-- One uploaded file as the web layer collects it. -/
structure UploadedFile where
  filename : String
  bytes : List Nat
deriving Repr, DecidableEq

/-- One entry of `all_outputs` in `app.index`. -/
structure FileOutput where
  filename : String
  text : String
  needs_confirmation : Bool
deriving Repr, DecidableEq

/-- What the `index` POST handler produces: a JSON reply with an HTTP
status code, a flash-and-redirect, or the rendered template (carrying the
`result` variable it is given). -/
inductive WebResponse where
  | json (result : PipelineResult) (code : Nat)
  | redirectIndex
  | page (result : Option PipelineResult)
deriving Repr, DecidableEq

/-! ## multi_agent_autogen.py -/

/-- The key set of the `AVAILABLE_MODELS` dict.  Its values are connection
settings taken from the process environment; they never influence control
flow, so only the keys (which decide the `KeyError` in
`build_llm_config`) are tracked. -/
def AVAILABLE_MODELS : List String := ["gpt-4.1-mini"]

/-- `build_llm_config`: `AVAILABLE_MODELS[model_key]` raises `KeyError` on
an unknown key; otherwise a config for that key is produced (abstracted to
the key itself, since the config's contents are environment data). -/
def build_llm_config (model_key : String) : Except PyErr String :=
  if model_key ∈ AVAILABLE_MODELS then .ok model_key
  else .error (.keyError model_key)

/-- The record `load_agents_from_db` stores for an accepted row. -/
def meta_of_entity (ent : TableEntity) : AgentMeta :=
  { name := pyStrip ent.rowKey
    prompt := ent.prompt.getD ""
    model := ent.model.getD "gpt-4.1-mini"
    agent_type := ent.agent_type.getD "llm" }

/-- The body of the `for ent in table_client.list_entities()` loop. -/
def load_step (agents : List (String × AgentMeta)) (ent : TableEntity) :
    List (String × AgentMeta) :=
  if ent.partitionKey ≠ some "agents" then agents
  else
    let name := pyStrip ent.rowKey
    if pyIsIdentifier name = false then agents
    else dictInsert name (meta_of_entity ent) agents

/-- `load_agents_from_db`. -/
def load_agents_from_db (entities : List TableEntity) : List (String × AgentMeta) :=
  entities.foldl load_step []

/-- The invoice vocabulary of `detect_document_type_from_prompt`. -/
def invoice_words : List String :=
  ["invoice", "vendor", "invoice number", "invoice id", "billing", "amount due", "tax"]

/-- The receipt vocabulary of `detect_document_type_from_prompt`. -/
def receipt_words : List String :=
  ["receipt", "merchant", "tip", "subtotal", "total tax"]

/-- `detect_document_type_from_prompt`. -/
def detect_document_type_from_prompt (prompt : String) : String :=
  let p := pyLower prompt
  if invoice_words.any (fun w => strContains p w) then "invoice"
  else if receipt_words.any (fun w => strContains p w) then "receipt"
  else "general"

/-- The keyword list of the no-file early return in `run_pipeline`. -/
def document_words : List String :=
  ["invoice", "receipt", "document", "extract", "summarize", "tax"]

/-- `any(word in task.lower() for word in [...])` in `run_pipeline`. -/
def mentions_document_words (task : String) : Bool :=
  document_words.any (fun w => strContains (pyLower task) w)

/-- One line of the supervisor's agent catalog:
`f"- {n}: {m['prompt'].replace(chr(10), ' ')}"`. -/
def render_catalog_line (p : String × AgentMeta) : String :=
  "- " ++ p.1 ++ ": " ++ pyReplaceNl p.2.prompt " "

/-- The entries the catalog comprehension ranges over:
`for n, m in agents_meta.items() if n != "Supervisor"`. -/
def catalog_entries (agents_meta : List (String × AgentMeta)) :
    List (String × AgentMeta) :=
  agents_meta.filter (fun p => p.1 ≠ "Supervisor")

/-- `agent_catalog` in `run_pipeline`. -/
def agent_catalog (agents_meta : List (String × AgentMeta)) : String :=
  String.intercalate "\n" ((catalog_entries agents_meta).map render_catalog_line)

/-- The `supervisor_input` f-string. -/
def supervisor_input (task catalog : String) : String :=
  "\nUSER TASK:\n" ++ task ++ "\n\nAVAILABLE AGENTS:\n" ++ catalog ++ "\n"

/-- System message of the `SummaryAgent`. -/
def SUMMARY_SYSTEM_MESSAGE : String :=
  "\nYou are a document summarization assistant.\nProvide a clear, point-by-point summary of the document in a vertical list format.\nEach point should be concise, informative, and written on a new line.\nDo not write paragraphs.\n\n"

/-- System message of the `DocQA` agent. -/
def DOCQA_SYSTEM_MESSAGE : String :=
  "\nYou are a document question answering assistant.\nAnswer ONLY from the document data.\n"

/-- The user message sent to `DocQA`. -/
def docqa_user_message (extracted_text task : String) : String :=
  "\nDocument Data:\n" ++ extracted_text ++ "\n\nUser Question:\n" ++ task ++ "\n"

/-! ### utils/utility.py -/

/-- The null-marker set `{"n/a", "na", "none", "null", ""}` of
`fetch_results` (compared against lower-cased content). -/
def NULL_MARKERS : List String := ["n/a", "na", "none", "null", ""]

/-- The `fields` schema dict inside `fetch_results`. -/
def FIELD_SCHEMAS (doc_type : String) : Option (List String × List String) :=
  if doc_type = "prebuilt-invoice" then
    some (["VendorName", "VendorAddress", "VendorAddressRecipient", "CustomerName",
           "CustomerId", "CustomerAddress", "CustomerAddressRecipient", "InvoiceId",
           "InvoiceDate", "InvoiceTotal", "DueDate", "PurchaseOrder", "BillingAddress",
           "BillingAddressRecipient", "ShippingAddress", "ShippingAddressRecipient",
           "SubTotal", "TotalTax", "PreviousUnpaidBalance", "AmountDue",
           "ServiceStartDate", "ServiceEndDate", "ServiceAddress",
           "ServiceAddressRecipient", "RemittanceAddress", "RemittanceAddressRecipient"],
          ["Description", "Quantity", "Unit", "UnitPrice", "ProductCode", "Date",
           "Tax", "Amount"])
  else if doc_type = "prebuilt-receipt" then
    some (["MerchantName", "TransactionDate", "Subtotal", "TotalTax", "Tip", "Total"],
          ["Description", "Quantity", "Price", "TotalPrice"])
  else if doc_type = "prebuilt-idDocument" then
    some (["FirstName", "LastName", "DateOfBirth", "DocumentNumber",
           "DateOfExpiration", "Address", "Sex", "CountryRegion", "Region"],
          [])
  else none

/-- Body of the named-field loop of `fetch_results`: skip absent fields and
null-marker content, otherwise `out[field] = content.replace("\n", "")`. -/
def field_step (doc : DIDocument) (out : List (String × String)) (field : String) :
    List (String × String) :=
  match pyGet field doc.fields with
  | none => out
  | some f =>
    if pyLower f.content ∈ NULL_MARKERS then out
    else dictInsert field (pyReplaceNl f.content "") out

/-- Body of the inner line-item loop of `fetch_results`: only sub-fields
named in the schema's item list are kept, null markers are skipped, and the
synthetic key is `f"Item_{idx+1}_{keyys}"`. -/
def item_key_step (itemNames : List String) (idx : Nat)
    (out : List (String × String)) (kv : String × ItemField) :
    List (String × String) :=
  if kv.1 ∈ itemNames then
    if pyLower kv.2.content ∈ NULL_MARKERS then out
    else dictInsert ("Item_" ++ toString (idx + 1) ++ "_" ++ kv.1)
           (pyReplaceNl kv.2.content "") out
  else out

/-- `fetch_results`.  A falsy `results` yields the error dict; an unknown
`doc_type` raises `KeyError` when the document loop runs (with no documents
the loop never evaluates the schema, and the `document` variable is unbound
at the `Items` block, a `NameError`). -/
def fetch_results (results : Option DIResult) (doc_type : String) :
    Except PyErr (List (String × String)) :=
  match results with
  | none => .ok [("status", "error"), ("message", "No results provided.")]
  | some res =>
    match FIELD_SCHEMAS doc_type with
    | none =>
      if res.documents.isEmpty then .error (.nameError "document")
      else .error (.keyError doc_type)
    | some (fieldNames, itemNames) =>
      let out := res.documents.foldl
        (fun out document => fieldNames.foldl (field_step document) out) []
      match res.documents.getLast? with
      | none => .error (.nameError "document")
      | some document =>
        match pyGet "Items" document.fields with
        | none => .ok out
        | some itemsField =>
          .ok ((itemsField.itemsValue.getD []).enum.foldl
            (fun out p => p.2.value.foldl (item_key_step itemNames p.1) out) out)

/-- The `"\n".join(f"{k}: {v}" ...)` at the `extracted_text` line of
`run_pipeline`. -/
def extracted_to_text (extracted : List (String × String)) : String :=
  String.intercalate "\n" (extracted.map (fun p => p.1 ++ ": " ++ p.2))

/-- `format_output`: the agents' replies are strings here, so the dict
branch of the source is never taken and the reply passes through. -/
def format_output (output : String) : String := output

/-- `run_form_recognizer`: analysis call plus `fetch_results`. -/
def run_form_recognizer (c : Collaborators) (file_bytes : List Nat) (model_id : String) :
    Except PyErr (List (String × String)) :=
  fetch_results (c.analyze file_bytes model_id) model_id

/-! ### run_pipeline -/

/-- The invoice/receipt tail of the document flow: flatten the extraction,
ask `DocQA`, return its answer. -/
def doc_qa_flow (c : Collaborators) (task : String)
    (extracted : List (String × String)) : PipelineResult :=
  let extracted_text := extracted_to_text extracted
  let final_answer := c.llm DOCQA_SYSTEM_MESSAGE (docqa_user_message extracted_text task)
  { status := "success", agent := some "DocQA", output := some final_answer }

/-- The `if file_bytes:` branch of `run_pipeline`. -/
def document_flow (c : Collaborators) (task : String) (file_bytes : List Nat)
    (filename : Option String) : Except PyErr PipelineResult :=
  let doc_intent := detect_document_type_from_prompt task
  if doc_intent = "invoice" then
    (run_form_recognizer c file_bytes "prebuilt-invoice").map (doc_qa_flow c task)
  else if doc_intent = "receipt" then
    (run_form_recognizer c file_bytes "prebuilt-receipt").map (doc_qa_flow c task)
  else
    if pyLower (pyStrip task) ∈ ["yes", "y"] then
      match filename with
      | none =>
        .error (.attributeError "'NoneType' object has no attribute 'lower'")
      | some fn =>
        let text := c.extract_text file_bytes fn
        let summary := c.llm SUMMARY_SYSTEM_MESSAGE ("Summarize:\n" ++ text)
        .ok { status := "success", agent := some "SummaryAgent", output := some summary }
    else
      .ok { status := "success", agent := some "System",
            output := some "This looks like a general document. Do you want me to extract data from it? ",
            needs_confirmation := some true }

/-- The normal (no-file) LLM agent flow of `run_pipeline`: load the
registry, look up `Supervisor` (a `KeyError` when absent), ask it to pick
an agent, look the trimmed reply up in the registry (a `KeyError` when it
is not a key), run that agent. -/
def normal_agent_flow (c : Collaborators) (task : String)
    (entities : List TableEntity) : Except PyErr PipelineResult :=
  let agents_meta := load_agents_from_db entities
  match pyGet "Supervisor" agents_meta with
  | none => .error (.keyError "Supervisor")
  | some supervisor_meta =>
    match build_llm_config supervisor_meta.model with
    | .error e => .error e
    | .ok _ =>
      let catalog := agent_catalog agents_meta
      let selected_agent :=
        pyStrip (c.llm supervisor_meta.prompt (supervisor_input task catalog))
      match pyGet selected_agent agents_meta with
      | none => .error (.keyError selected_agent)
      | some agent_meta =>
        match build_llm_config agent_meta.model with
        | .error e => .error e
        | .ok _ =>
          .ok { status := "success", agent := some selected_agent,
                output := some (format_output (c.llm agent_meta.prompt task)) }

/-- Python truthiness of the `file_bytes` argument (`None` and `b""` are
falsy). -/
def bytesFalsy : Option (List Nat) → Bool
  | none => true
  | some l => l.isEmpty

/-- `run_pipeline`.  The `doc_type` parameter exists in the source
signature but is never read by the body.  In the source the defaults of
`file_bytes`, `doc_type` and `filename` are `None`; callers here always
pass them explicitly. -/
def run_pipeline (c : Collaborators) (task : String) (entities : List TableEntity)
    (file_bytes : Option (List Nat)) (doc_type : Option String)
    (filename : Option String) : Except PyErr PipelineResult :=
  if task = "" ∨ pyStrip task = "" then
    .ok { status := "error", message := some "Please provide a task." }
  else if bytesFalsy file_bytes && mentions_document_words task then
    .ok { status := "success", agent := some "System", output := some "No document found." }
  else if bytesFalsy file_bytes = false then
    document_flow c task (file_bytes.getD []) filename
  else
    normal_agent_flow c task entities

/-! ## app.py -/

/-- `ALLOWED_EXTENSIONS`. -/
def ALLOWED_EXTENSIONS : List String := ["pdf", "png", "jpg", "jpeg", "tiff", "bmp", "docx"]

/-- `is_allowed_file`. -/
def is_allowed_file (filename : String) : Bool :=
  if strContains filename "." = false then false
  else pyLower (afterLastDot filename) ∈ ALLOWED_EXTENSIONS

/-- The upload-collection loop of `index`: files with an empty filename are
skipped (a Werkzeug `FileStorage` is falsy then); the first disallowed
filename aborts with the "Unsupported file type." reply. -/
def collect_files : List UploadedFile → Except String (List UploadedFile)
  | [] => .ok []
  | f :: rest =>
    if f.filename ≠ "" then
      if is_allowed_file f.filename = false then .error "Unsupported file type."
      else (collect_files rest).map (fun l => f :: l)
    else collect_files rest

/-- The per-file pipeline loop of `index`: builds `all_outputs` (reading
absent keys with `dict.get` defaults) and tracks the `result` variable the
template is later handed (the last per-file result).  A raised exception
propagates to the surrounding `try`. -/
def run_all (c : Collaborators) (entities : List TableEntity) (topic : String) :
    List UploadedFile → Except PyErr (List FileOutput × Option PipelineResult)
  | [] => .ok ([], none)
  | f :: rest =>
    match run_pipeline c topic entities (some f.bytes) none (some f.filename) with
    | .error e => .error e
    | .ok r =>
      match run_all c entities topic rest with
      | .error e => .error e
      | .ok (outs, last) =>
        .ok ({ filename := f.filename, text := r.output.getD "",
               needs_confirmation := r.needs_confirmation.getD false } :: outs,
             some (last.getD r))

/-- The aggregation step of `index`: a single output is re-wrapped under
agent `"System"`; several outputs are concatenated under per-file
headers with `needs_confirmation` the disjunction. -/
def aggregate_outputs (all_outputs : List FileOutput) : PipelineResult :=
  match all_outputs with
  | [o] =>
    { status := "success", agent := some "System", output := some o.text,
      needs_confirmation := some o.needs_confirmation }
  | outs =>
    let combined := outs.foldl
      (fun acc o => acc ++ "\n\nIn file " ++ o.filename ++ ":\n" ++ o.text ++ "\n") ""
    { status := "success", agent := some "System", output := some (pyStrip combined),
      needs_confirmation := some (outs.any (fun o => o.needs_confirmation)) }

/-- The POST branch of `index`.  `is_ajax` is the `X-Requested-With`
header test; the `"no"` short-circuit replies with JSON regardless of it. -/
def index_post (c : Collaborators) (entities : List TableEntity) (is_ajax : Bool)
    (topic_raw : String) (uploaded_files : List UploadedFile) : WebResponse :=
  let topic := pyStrip topic_raw
  if pyLower topic = "no" then
    .json { status := "success", agent := some "System",
            output := some "You have ended the chat." } 200
  else if topic = "" then
    if is_ajax then .json { status := "error", message := some "Please enter a task." } 400
    else .redirectIndex
  else
    match collect_files uploaded_files with
    | .error msg =>
      if is_ajax then .json { status := "error", message := some msg } 400
      else .redirectIndex
    | .ok files_data =>
      match run_all c entities topic files_data with
      | .error e =>
        let err : PipelineResult :=
          { status := "error", message := some ("Internal error: " ++ pyErrMessage e) }
        if is_ajax then .json err 500 else .page (some err)
      | .ok (all_outputs, last) =>
        let final_result := aggregate_outputs all_outputs
        if is_ajax then .json final_result 200 else .page last

/-! ## Spec-side description of the extraction flattening (for C9)

These two definitions follow the spec's words for the flattening performed
by `fetch_results` on a single analyzed document; the claim is settled by
comparing them with the source embedding above. -/

/-- Spec side: one retained `(field, value)` pair per schema field present
in the document whose content is not a null marker, in schema order, with
newlines removed from the value. -/
def spec_field_pairs (fieldNames : List String) (doc : DIDocument) :
    List (String × String) :=
  fieldNames.filterMap (fun field =>
    match pyGet field doc.fields with
    | none => none
    | some f =>
      if pyLower f.content ∈ NULL_MARKERS then none
      else some (field, pyReplaceNl f.content ""))

/-- Spec side: line items flattened in order under synthetic keys
`Item_{i+1}_{name}`, keeping schema-listed sub-fields that are not null
markers. -/
def spec_item_pairs (itemNames : List String) (items : List DIItem) :
    List (String × String) :=
  items.enum.flatMap (fun p =>
    p.2.value.filterMap (fun kv =>
      if kv.1 ∈ itemNames then
        if pyLower kv.2.content ∈ NULL_MARKERS then none
        else some ("Item_" ++ toString (p.1 + 1) ++ "_" ++ kv.1, pyReplaceNl kv.2.content "")
      else none))

/-- Spec side: the item pairs of a document (empty when it has no `Items`
field). -/
def spec_items_of (itemNames : List String) (doc : DIDocument) :
    List (String × String) :=
  match pyGet "Items" doc.fields with
  | none => []
  | some f => spec_item_pairs itemNames (f.itemsValue.getD [])

/-- The selector the named-field loop of `fetch_results` applies to one
schema field. -/
def field_sel (doc : DIDocument) (field : String) : Option (String × String) :=
  match pyGet field doc.fields with
  | none => none
  | some f =>
    if pyLower f.content ∈ NULL_MARKERS then none
    else some (field, pyReplaceNl f.content "")

/-- The selector the line-item loop of `fetch_results` applies to one
sub-field of the item at position `idx`. -/
def item_sel (itemNames : List String) (idx : Nat) (kv : String × ItemField) :
    Option (String × String) :=
  if kv.1 ∈ itemNames then
    if pyLower kv.2.content ∈ NULL_MARKERS then none
    else some ("Item_" ++ toString (idx + 1) ++ "_" ++ kv.1, pyReplaceNl kv.2.content "")
  else none

/-! ## Concrete fixtures used by witnesses and counterexamples -/

/-- A supervisor record as loaded from the store. -/
def exSupMeta : AgentMeta :=
  { name := "Supervisor", prompt := "Route tasks.", model := "gpt-4.1-mini", agent_type := "llm" }

/-- A conversational handler record. -/
def exWriterMeta : AgentMeta :=
  { name := "Writer", prompt := "Write things.", model := "gpt-4.1-mini", agent_type := "llm" }

/-- Store row for the supervisor. -/
def exSupervisorEntity : TableEntity :=
  { partitionKey := some "agents", rowKey := "Supervisor", prompt := some "Route tasks.",
    model := some "gpt-4.1-mini", agent_type := some "llm" }

/-- Store row for the conversational handler. -/
def exWriterEntity : TableEntity :=
  { partitionKey := some "agents", rowKey := "Writer", prompt := some "Write things.",
    model := some "gpt-4.1-mini", agent_type := some "llm" }

/-- A registry with a valid Supervisor and one conversational handler. -/
def exRegistry : List TableEntity := [exSupervisorEntity, exWriterEntity]

/-- A model executor that always replies the literal `"NONE"`. -/
def exReplyNone : Collaborators :=
  { llm := fun _ _ => "NONE", analyze := fun _ _ => none, extract_text := fun _ _ => "" }

/-- A model executor that replies a padded unknown handler name. -/
def exReplyGhost : Collaborators :=
  { llm := fun _ _ => " Ghost ", analyze := fun _ _ => none, extract_text := fun _ _ => "" }

/-- A model executor whose supervisor picks `Writer` (padded) and whose
agents reply `"OUT"`. -/
def exPickWriter : Collaborators :=
  { llm := fun sys _ => if sys = "Route tasks." then " Writer " else "OUT",
    analyze := fun _ _ => none, extract_text := fun _ _ => "t" }

/-- A summarizing executor and text extractor. -/
def exSummarizer : Collaborators :=
  { llm := fun sys u => if sys = SUMMARY_SYSTEM_MESSAGE then "SUMMARY of " ++ u else "X",
    analyze := fun _ _ => none, extract_text := fun _ _ => "TEXT" }

/-- A one-field analyzed invoice. -/
def exInvoiceDoc : DIDocument := { fields := [("VendorName", { content := "Acme" })] }

/-- Collaborators whose analysis service returns `exInvoiceDoc` for the
invoice schema and whose QA agent answers `"ANSWER"`. -/
def exInvoiceQA : Collaborators :=
  { llm := fun sys _ => if sys = DOCQA_SYSTEM_MESSAGE then "ANSWER" else "X",
    analyze := fun _ mid => if mid = "prebuilt-invoice" then some { documents := [exInvoiceDoc] } else none,
    extract_text := fun _ _ => "t" }

/-- A loaded handler map holding the supervisor and an extraction-service
handler. -/
def exCatalogMap : List (String × AgentMeta) :=
  [("Supervisor", exSupMeta),
   ("Extractor", { name := "Extractor", prompt := "Pull fields",
                   model := "gpt-4.1-mini", agent_type := "extraction_service" })]

/-- A store row whose model key resolves to nothing in the model registry. -/
def exGhostModelEntity : TableEntity :=
  { partitionKey := some "agents", rowKey := "Ghost", model := some "no-such-model" }

/-- A plain store row relying on the loader defaults. -/
def exBobEntity : TableEntity :=
  { partitionKey := some "agents", rowKey := "Bob", prompt := some "hi" }

/-- An analyzed invoice exercising null markers, newline scrubbing and
line items. -/
def exItemsDoc : DIDocument :=
  { fields := [("VendorName", { content := "Acme\nInc" }),
               ("SubTotal", { content := "N/A" }),
               ("Items", { content := "",
                           itemsValue := some [
                             { value := [("Description", { content := "Chair" }),
                                         ("Quantity", { content := "2" }),
                                         ("Junk", { content := "x" })] },
                             { value := [("Amount", { content := "none" }),
                                         ("UnitPrice", { content := "5" })] }] })] }

/-! ## Helper lemmas -/

theorem not_empty_task_cond {task : String} (h : pyStrip task ≠ "") :
    ¬(task = "" ∨ pyStrip task = "") := by
  rintro (he | he)
  · exact h (by rw [he]; rfl)
  · exact h he

theorem bytesFalsy_some_eq_false {bs : List Nat} (h : bs ≠ []) :
    bytesFalsy (some bs) = false := by
  cases bs with
  | nil => exact absurd rfl h
  | cons b rest => rfl

theorem mem_dictInsert {α} {p : String × α} {k : String} {v : α} :
    ∀ {l : List (String × α)}, p ∈ dictInsert k v l → p = (k, v) ∨ p ∈ l
  | [], h => by simpa [dictInsert] using h
  | q :: rest, h => by
    by_cases hq : q.1 = k
    · rw [dictInsert, if_pos hq] at h
      rcases List.mem_cons.mp h with h | h
      · exact Or.inl h
      · exact Or.inr (List.mem_cons_of_mem q h)
    · rw [dictInsert, if_neg hq] at h
      rcases List.mem_cons.mp h with h | h
      · exact Or.inr (h ▸ List.mem_cons_self q rest)
      · rcases mem_dictInsert h with h | h
        · exact Or.inl h
        · exact Or.inr (List.mem_cons_of_mem q h)

theorem pyGet_eq_none_iff {α} {k : String} :
    ∀ {l : List (String × α)}, pyGet k l = none ↔ k ∉ l.map Prod.fst
  | [] => by simp [pyGet]
  | q :: rest => by
    by_cases hq : q.1 = k
    · simp [pyGet, hq]
    · simp [pyGet, hq, pyGet_eq_none_iff (l := rest), Ne.symm hq]

theorem pyGet_append {α} (k : String) :
    ∀ (l₁ l₂ : List (String × α)), pyGet k (l₁ ++ l₂) =
      match pyGet k l₁ with
      | some v => some v
      | none => pyGet k l₂
  | [], l₂ => by simp [pyGet]
  | q :: rest, l₂ => by
    by_cases hq : q.1 = k
    · simp [pyGet, hq]
    · simp [pyGet, hq, pyGet_append k rest l₂]

theorem dictInsert_of_fresh {α} {k : String} {v : α} :
    ∀ {l : List (String × α)}, pyGet k l = none → dictInsert k v l = l ++ [(k, v)]
  | [], _ => rfl
  | q :: rest, h => by
    by_cases hq : q.1 = k
    · rw [pyGet, if_pos hq] at h; exact absurd h (by simp)
    · rw [pyGet, if_neg hq] at h
      rw [dictInsert, if_neg hq, dictInsert_of_fresh h]
      simp

theorem foldl_dictInsert_fresh :
    ∀ (ps : List (String × String)) (out : List (String × String)),
      (∀ k ∈ ps.map Prod.fst, pyGet k out = none) → (ps.map Prod.fst).Nodup →
      ps.foldl (fun o p => dictInsert p.1 p.2 o) out = out ++ ps
  | [], out, _, _ => by simp
  | p :: ps, out, hfresh, hnd => by
    rw [List.map_cons, List.nodup_cons] at hnd
    rw [List.foldl_cons, dictInsert_of_fresh (hfresh p.1 (by simp)),
        foldl_dictInsert_fresh ps (out ++ [p]) ?fresh hnd.2]
    · simp
    case fresh =>
      intro k hk
      rw [pyGet_append, hfresh k (by simp [hk])]
      have hne : p.1 ≠ k := fun hcontra => hnd.1 (hcontra ▸ hk)
      simp [pyGet, hne]

theorem foldl_match_filterMap {α} (sel : α → Option (String × String)) :
    ∀ (l : List α) (out : List (String × String)),
      l.foldl (fun o x =>
        match sel x with
        | none => o
        | some p => dictInsert p.1 p.2 o) out =
      (l.filterMap sel).foldl (fun o p => dictInsert p.1 p.2 o) out
  | [], out => by simp
  | x :: l, out => by
    rw [List.foldl_cons, List.filterMap_cons]
    cases hx : sel x with
    | none => simpa using foldl_match_filterMap sel l out
    | some p => simpa using foldl_match_filterMap sel l (dictInsert p.1 p.2 out)

theorem foldl_inner_flatMap {α β γ} (g : α → List β) (step : γ → β → γ) :
    ∀ (l : List α) (init : γ),
      l.foldl (fun acc x => (g x).foldl step acc) init =
      (l.flatMap g).foldl step init
  | [], init => by simp
  | x :: l, init => by
    rw [List.foldl_cons, List.flatMap_cons, List.foldl_append]
    exact foldl_inner_flatMap g step l ((g x).foldl step init)

theorem field_step_eq_sel (doc : DIDocument) :
    field_step doc = fun out field =>
      match field_sel doc field with
      | none => out
      | some p => dictInsert p.1 p.2 out := by
  funext out field
  rw [field_step, field_sel]
  cases pyGet field doc.fields with
  | none => rfl
  | some f =>
    by_cases hn : pyLower f.content ∈ NULL_MARKERS <;> simp [hn]

theorem item_key_step_eq_sel (itemNames : List String) (idx : Nat) :
    item_key_step itemNames idx = fun out kv =>
      match item_sel itemNames idx kv with
      | none => out
      | some p => dictInsert p.1 p.2 out := by
  funext out kv
  rw [item_key_step, item_sel]
  by_cases h1 : kv.1 ∈ itemNames
  · by_cases hn : pyLower kv.2.content ∈ NULL_MARKERS <;> simp [h1, hn]
  · simp [h1]

theorem spec_field_pairs_eq_filterMap (fieldNames : List String) (doc : DIDocument) :
    spec_field_pairs fieldNames doc = fieldNames.filterMap (field_sel doc) := rfl

theorem spec_item_pairs_eq_flatMap (itemNames : List String) (items : List DIItem) :
    spec_item_pairs itemNames items =
      items.enum.flatMap (fun p => p.2.value.filterMap (item_sel itemNames p.1)) := rfl

/-! ## Claims -/

/-- C9.  `fetch_results` on a single analyzed document and a known schema
produces exactly the spec-described flattening: one `(field, value)` pair
per retained schema field in schema order — a field is retained iff
present with content that is not one of the null markers `"n/a"`, `"na"`,
`"none"`, `"null"`, `""` (compared lower-cased) — followed by the line
items flattened in order under synthetic keys `Item_{i+1}_{subfield}`
with the same null-marker skipping; values have newlines removed.  The
pipeline then renders each pair as a `"field: value"` line
(`extracted_to_text`).  The key-distinctness hypothesis rules out
key collisions, where the Python dict would overwrite in place. -/
theorem claim_C9_theorem (doc : DIDocument) (dt : String)
    (fieldNames itemNames : List String)
    (hschema : FIELD_SCHEMAS dt = some (fieldNames, itemNames))
    (hnd : ((spec_field_pairs fieldNames doc).map Prod.fst ++
            (spec_items_of itemNames doc).map Prod.fst).Nodup) :
    fetch_results (some { documents := [doc] }) dt =
      Except.ok (spec_field_pairs fieldNames doc ++ spec_items_of itemNames doc) := by
  rw [List.nodup_append] at hnd
  obtain ⟨hnd₁, hnd₂, hdisj⟩ := hnd
  have hfields :
      ([doc].foldl (fun out document => fieldNames.foldl (field_step document) out)
        ([] : List (String × String))) = spec_field_pairs fieldNames doc := by
    rw [List.foldl_cons, List.foldl_nil, field_step_eq_sel, foldl_match_filterMap,
        ← spec_field_pairs_eq_filterMap,
        foldl_dictInsert_fresh _ [] (fun k _ => rfl) hnd₁]
    rfl
  simp only [fetch_results, hschema]
  rw [hfields]
  simp only [List.getLast?_singleton]
  rw [spec_items_of] at hnd₂ hdisj ⊢
  cases hitems : pyGet "Items" doc.fields with
  | none => simp
  | some f =>
    rw [hitems] at hnd₂ hdisj
    dsimp only at hnd₂ hdisj ⊢
    have hstep :
        (fun (out : List (String × String)) (p : Nat × DIItem) =>
            p.2.value.foldl (item_key_step itemNames p.1) out) =
        (fun out p =>
            (p.2.value.filterMap (item_sel itemNames p.1)).foldl
              (fun o q => dictInsert q.1 q.2 o) out) := by
      funext out p
      rw [item_key_step_eq_sel, foldl_match_filterMap]
    rw [hstep, foldl_inner_flatMap, ← spec_item_pairs_eq_flatMap,
        foldl_dictInsert_fresh _ _ ?fresh hnd₂]
    case fresh =>
      intro k hk
      exact pyGet_eq_none_iff.mpr (fun hmem => hdisj hmem hk)

/-- Fold the per-file header concatenation of the aggregator into a join
over the rendered per-file sections. -/
theorem foldl_strAppend : ∀ (l : List String) (s t : String),
    l.foldl (fun r x => r ++ x) (s ++ t) = s ++ l.foldl (fun r x => r ++ x) t
  | [], _, _ => rfl
  | x :: xs, s, t => by
    rw [List.foldl_cons, String.append_assoc, foldl_strAppend xs s (t ++ x), List.foldl_cons]

theorem strJoin_cons (s : String) (l : List String) :
    String.join (s :: l) = s ++ String.join l := by
  rw [String.join, String.join, List.foldl_cons]
  have h := foldl_strAppend l s ""
  rw [String.append_empty] at h
  exact h

theorem foldl_files_join :
    ∀ (outs : List FileOutput) (s : String),
      outs.foldl (fun acc o => acc ++ "\n\nIn file " ++ o.filename ++ ":\n" ++ o.text ++ "\n") s =
        s ++ String.join (outs.map (fun o => "\n\nIn file " ++ o.filename ++ ":\n" ++ o.text ++ "\n"))
  | [], s => by simp [String.join]
  | o :: rest, s => by
    rw [List.foldl_cons, List.map_cons, strJoin_cons, foldl_files_join rest]
    simp [String.append_assoc]

/-- With a non-empty trimmed task, the guard on the empty task fails. -/
theorem run_pipeline_no_file (c : Collaborators) (task : String) (ents : List TableEntity)
    (dt : Option String) (fn : Option String)
    (h1 : pyStrip task ≠ "") (h2 : mentions_document_words task = false) :
    run_pipeline c task ents none dt fn = normal_agent_flow c task ents := by
  rw [run_pipeline, if_neg (not_empty_task_cond h1)]
  simp [bytesFalsy, h2]

/-- With a non-empty trimmed task and non-empty file bytes, the pipeline
enters the document flow. -/
theorem run_pipeline_with_file (c : Collaborators) (task : String) (ents : List TableEntity)
    (bs : List Nat) (dt : Option String) (fn : Option String)
    (h1 : pyStrip task ≠ "") (hb : bs ≠ []) :
    run_pipeline c task ents (some bs) dt fn = document_flow c task bs fn := by
  rw [run_pipeline, if_neg (not_empty_task_cond h1)]
  simp [bytesFalsy_some_eq_false hb]

/-- C1 (amended).  For every non-empty task with no attached file whose
text mentions none of the document keywords, given a registry whose loaded
handler map holds a `Supervisor` with a model key present in the model
registry, and a supervisor reply that trims to a key of the loaded map
(again with a resolvable model key), `run_pipeline` returns
`status = "success"` with the agent field equal to the trimmed chosen
name.  The original claim fails on the code: there is no
`no_suitable_handler` status anywhere and a reply of the literal `"NONE"`
raises a `KeyError` (see `claim_C1_counterexample`); tasks mentioning a
document keyword short-circuit to a fixed "No document found." reply
before the supervisor is consulted. -/
theorem claim_C1_theorem (c : Collaborators) (ents : List TableEntity) (task : String)
    (sm am : AgentMeta) (sel : String)
    (h1 : pyStrip task ≠ "")
    (h2 : mentions_document_words task = false)
    (hsup : pyGet "Supervisor" (load_agents_from_db ents) = some sm)
    (hsm : sm.model ∈ AVAILABLE_MODELS)
    (hreply : pyStrip (c.llm sm.prompt
        (supervisor_input task (agent_catalog (load_agents_from_db ents)))) = sel)
    (hsel : pyGet sel (load_agents_from_db ents) = some am)
    (ham : am.model ∈ AVAILABLE_MODELS) :
    run_pipeline c task ents none none none =
      Except.ok { status := "success", agent := some sel,
                  output := some (format_output (c.llm am.prompt task)) } := by
  subst hreply
  rw [run_pipeline_no_file c task ents none none h1 h2]
  simp only [normal_agent_flow]
  rw [hsup]
  dsimp only
  rw [build_llm_config, if_pos hsm]
  dsimp only
  rw [hsel]
  dsimp only
  rw [build_llm_config, if_pos ham]

/-- C2 (amended).  When the loaded registry has no `"Supervisor"` key and
the no-file agent flow is reached (non-empty task, no document keyword),
`run_pipeline` raises `KeyError("Supervisor")` — an exception, not the
structured `status = error` result the claim asserts.  (The surrounding
web route catches it and replies `Internal error: 'Supervisor'`.) -/
theorem claim_C2_theorem (c : Collaborators) (ents : List TableEntity) (task : String)
    (h1 : pyStrip task ≠ "")
    (h2 : mentions_document_words task = false)
    (hsup : pyGet "Supervisor" (load_agents_from_db ents) = none) :
    run_pipeline c task ents none none none = Except.error (PyErr.keyError "Supervisor") := by
  rw [run_pipeline_no_file c task ents none none h1 h2]
  simp only [normal_agent_flow]
  rw [hsup]

/-- C3 (amended).  The trimmed supervisor reply is used only for an
exact-match lookup in the loaded handler map — no fuzzy or partial
matching — but a reply that is not a key (including the literal `"NONE"`)
raises `KeyError` carrying the trimmed reply rather than producing
`status = no_suitable_handler` / `status = error` results. -/
theorem claim_C3_theorem (c : Collaborators) (ents : List TableEntity) (task : String)
    (sm : AgentMeta) (sel : String)
    (h1 : pyStrip task ≠ "")
    (h2 : mentions_document_words task = false)
    (hsup : pyGet "Supervisor" (load_agents_from_db ents) = some sm)
    (hsm : sm.model ∈ AVAILABLE_MODELS)
    (hreply : pyStrip (c.llm sm.prompt
        (supervisor_input task (agent_catalog (load_agents_from_db ents)))) = sel)
    (hnone : pyGet sel (load_agents_from_db ents) = none) :
    run_pipeline c task ents none none none = Except.error (PyErr.keyError sel) := by
  subst hreply
  rw [run_pipeline_no_file c task ents none none h1 h2]
  simp only [normal_agent_flow]
  rw [hsup]
  dsimp only
  rw [build_llm_config, if_pos hsm]
  dsimp only
  rw [hnone]

/-- C4 (amended).  Every line of the supervisor catalog comes from a
non-`Supervisor` entry of the handler map, and every non-`Supervisor`
entry contributes its rendered line regardless of its `agent_type` — the
catalog applies no kind-based filtering, so `extraction_service` handlers
are listed even though the catalog is only ever built when no file is
attached. -/
theorem claim_C4_theorem (m : List (String × AgentMeta)) :
    (∀ p ∈ catalog_entries m, p.1 ≠ "Supervisor" ∧ p ∈ m) ∧
    (∀ p ∈ m, p.1 ≠ "Supervisor" →
      render_catalog_line p ∈ (catalog_entries m).map render_catalog_line) := by
  constructor
  · intro p hp
    rw [catalog_entries, List.mem_filter] at hp
    exact ⟨by simpa using hp.2, hp.1⟩
  · intro p hp hne
    exact List.mem_map_of_mem _ (by rw [catalog_entries, List.mem_filter]; exact ⟨hp, by simpa⟩)

/-- C5 auxiliary: every entry produced by the loader's fold comes from a
store row in the `agents` partition whose stripped `RowKey` is a valid
identifier. -/
theorem load_mem_aux :
    ∀ (ents : List TableEntity) (acc : List (String × AgentMeta)) (p : String × AgentMeta),
      p ∈ ents.foldl load_step acc →
      p ∈ acc ∨ ∃ ent ∈ ents, ent.partitionKey = some "agents" ∧
        pyIsIdentifier (pyStrip ent.rowKey) = true ∧
        p = (pyStrip ent.rowKey, meta_of_entity ent)
  | [], _, _, h => Or.inl h
  | e :: es, acc, p, h => by
    rcases load_mem_aux es (load_step acc e) p h with h' | ⟨ent, hent, k1, k2, k3⟩
    · simp only [load_step] at h'
      split at h'
      · exact Or.inl h'
      · split at h'
        · exact Or.inl h'
        · rcases mem_dictInsert h' with h'' | h''
          · refine Or.inr ⟨e, List.mem_cons_self e es, ?_, ?_, h''⟩
            · rename_i hpk _
              simpa using hpk
            · rename_i hid
              simpa using hid
          · exact Or.inl h''
    · exact Or.inr ⟨ent, List.mem_cons_of_mem e hent, k1, k2, k3⟩

/-- C5 (amended).  Every entry of the loaded handler map comes from a
store row of the `agents` partition whose stripped `RowKey` is a valid
identifier (rule 1 of the claim), with `prompt` defaulted to `""`,
`model` defaulted to `"gpt-4.1-mini"` and `agent_type` (the kind)
defaulted to `"llm"` (rule 3, with `llm` the conversational kind).  Rule 2
of the claim is not implemented: the declared model key is never checked
against the model registry (see `claim_C5_counterexample`), and an
unresolvable key only raises later, inside `build_llm_config`. -/
theorem claim_C5_theorem (ents : List TableEntity) (k : String) (m : AgentMeta)
    (h : (k, m) ∈ load_agents_from_db ents) :
    ∃ ent ∈ ents, ent.partitionKey = some "agents" ∧
      pyIsIdentifier k = true ∧ k = pyStrip ent.rowKey ∧ m = meta_of_entity ent := by
  rcases load_mem_aux ents [] (k, m) h with h' | ⟨ent, hent, k1, k2, k3⟩
  · simp at h'
  · have hk : k = pyStrip ent.rowKey := congrArg Prod.fst k3
    have hm : m = meta_of_entity ent := congrArg Prod.snd k3
    exact ⟨ent, hent, k1, by rw [hk]; exact k2, hk, hm⟩

/-- C6.  For a request with a file attached (non-empty bytes), a
non-empty task classified `general` and a filename present: if the
trimmed, lower-cased task is exactly `"yes"` or `"y"`, plain text is
extracted from the document and summarized, returning `status = success`
from `SummaryAgent` with no `needs_confirmation` key (read as `false` by
the caller); otherwise the result is the fixed confirmation prompt with
`needs_confirmation = true` — a constant independent of every
collaborator, so in particular no extraction call occurs or can influence
it (the theorem holds for all `c : Collaborators`). -/
theorem claim_C6_theorem (c : Collaborators) (ents : List TableEntity) (task : String)
    (bs : List Nat) (fn : String) (dt : Option String)
    (hb : bs ≠ []) (h1 : pyStrip task ≠ "")
    (hg : detect_document_type_from_prompt task = "general") :
    (pyLower (pyStrip task) ∈ ["yes", "y"] →
      run_pipeline c task ents (some bs) dt (some fn) =
        Except.ok { status := "success", agent := some "SummaryAgent",
                    output := some (c.llm SUMMARY_SYSTEM_MESSAGE
                        ("Summarize:\n" ++ c.extract_text bs fn)) }) ∧
    (pyLower (pyStrip task) ∉ ["yes", "y"] →
      run_pipeline c task ents (some bs) dt (some fn) =
        Except.ok { status := "success", agent := some "System",
                    output := some "This looks like a general document. Do you want me to extract data from it? ",
                    needs_confirmation := some true }) := by
  have hdf := run_pipeline_with_file c task ents bs dt (some fn) h1 hb
  constructor <;> intro hyn
  · rw [hdf]
    simp only [document_flow]
    rw [hg, if_neg ((by decide : ¬ ("general" : String) = "invoice")),
        if_neg ((by decide : ¬ ("general" : String) = "receipt")), if_pos hyn]
  · rw [hdf]
    simp only [document_flow]
    rw [hg, if_neg ((by decide : ¬ ("general" : String) = "invoice")),
        if_neg ((by decide : ¬ ("general" : String) = "receipt")), if_neg hyn]

/-- C7.  Whenever the task trims and lower-cases to `"no"`, the POST
handler replies immediately with the fixed terminal
`"You have ended the chat."` JSON — for every AJAX flag, every uploaded
file list and every registry state; the check is the first branch taken,
before the empty-task check, file validation and the pipeline. -/
theorem claim_C7_theorem (c : Collaborators) (ents : List TableEntity) (is_ajax : Bool)
    (topic_raw : String) (files : List UploadedFile)
    (h : pyLower (pyStrip topic_raw) = "no") :
    index_post c ents is_ajax topic_raw files =
      WebResponse.json { status := "success", agent := some "System",
                         output := some "You have ended the chat." } 200 := by
  simp only [index_post]
  rw [if_pos h]

/-- C8 (amended).  The aggregator does not return a single per-file
result unmodified: it rewraps it as `status = success`, `agent = System`,
keeping only the output text and the `needs_confirmation` flag (the
per-file agent and status are discarded — see `claim_C8_counterexample`).
With several files it concatenates the per-file outputs under
`In file <name>:` headers in upload order and sets `needs_confirmation`
exactly when some constituent requested it, as the claim states. -/
theorem claim_C8_theorem (c : Collaborators) (ents : List TableEntity)
    (topic_raw : String) (files fdata : List UploadedFile)
    (outs : List FileOutput) (last : Option PipelineResult)
    (h1 : pyLower (pyStrip topic_raw) ≠ "no") (h2 : pyStrip topic_raw ≠ "")
    (hc : collect_files files = Except.ok fdata)
    (hr : run_all c ents (pyStrip topic_raw) fdata = Except.ok (outs, last)) :
    (∀ o, outs = [o] →
      index_post c ents true topic_raw files =
        WebResponse.json { status := "success", agent := some "System",
                           output := some o.text,
                           needs_confirmation := some o.needs_confirmation } 200) ∧
    (outs.length ≠ 1 →
      index_post c ents true topic_raw files =
        WebResponse.json { status := "success", agent := some "System",
                           output := some (pyStrip (String.join (outs.map
                               (fun o => "\n\nIn file " ++ o.filename ++ ":\n" ++ o.text ++ "\n")))),
                           needs_confirmation := some (outs.any (fun o => o.needs_confirmation)) } 200) := by
  have hbase : index_post c ents true topic_raw files =
      WebResponse.json (aggregate_outputs outs) 200 := by
    simp only [index_post]
    rw [if_neg h1, if_neg h2, hc]
    dsimp only
    rw [hr]
    simp
  constructor
  · rintro o rfl
    rw [hbase]
    rfl
  · intro hlen
    cases outs with
    | nil => rw [hbase]; rfl
    | cons o rest =>
      cases rest with
      | nil => exact absurd rfl hlen
      | cons o₂ rest₂ =>
        rw [hbase, aggregate_outputs]
        · rw [foldl_files_join]
          rfl
        · intro o1 h
          simp at h

/-- C10.  With a non-empty task and a file attached (non-empty bytes),
`run_pipeline` returns the same result for any two registry states: the
document branch returns before `load_agents_from_db` is ever consulted,
so the handler registry cannot influence file-carrying requests. -/
theorem claim_C10_theorem (c : Collaborators) (task : String)
    (ents₁ ents₂ : List TableEntity) (bs : List Nat) (dt : Option String)
    (fn : Option String) (h1 : pyStrip task ≠ "") (hb : bs ≠ []) :
    run_pipeline c task ents₁ (some bs) dt fn = run_pipeline c task ents₂ (some bs) dt fn := by
  rw [run_pipeline_with_file c task ents₁ bs dt fn h1 hb,
      run_pipeline_with_file c task ents₂ bs dt fn h1 hb]

set_option maxRecDepth 8000 in
/-- C1 is false as stated: with a registry holding a valid `Supervisor`
plus a conversational handler and a supervisor that replies the literal
`"NONE"`, `run_pipeline` raises `KeyError("NONE")` and returns no result
dict at all — in particular no `status = no_suitable_handler`. -/
theorem claim_C1_counterexample :
    run_pipeline exReplyNone "hello" exRegistry none none none =
      Except.error (PyErr.keyError "NONE") ∧
    ¬ ∃ r : PipelineResult,
        run_pipeline exReplyNone "hello" exRegistry none none none = Except.ok r := by
  refine ⟨by decide, ?_⟩
  rintro ⟨r, hr⟩
  rw [(by decide : run_pipeline exReplyNone "hello" exRegistry none none none =
    Except.error (PyErr.keyError "NONE"))] at hr
  exact Except.noConfusion hr

set_option maxRecDepth 8000 in
/-- C1 witness: the amended theorem applied to a concrete registry and a
supervisor that picks `Writer`. -/
theorem claim_C1_witness :
    run_pipeline exPickWriter "hello" exRegistry none none none =
      Except.ok { status := "success", agent := some "Writer", output := some "OUT" } :=
  claim_C1_theorem exPickWriter exRegistry "hello" exSupMeta exWriterMeta "Writer"
    (by decide) (by decide) (by decide) (by decide) (by decide) (by decide) (by decide)

set_option maxRecDepth 8000 in
/-- C2 is false as stated: with a registry lacking `Supervisor`,
`run_pipeline` terminates in a raised `KeyError`, not in any returned
result dict. -/
theorem claim_C2_counterexample :
    run_pipeline exReplyNone "hello" [exWriterEntity] none none none =
      Except.error (PyErr.keyError "Supervisor") ∧
    ¬ ∃ r : PipelineResult,
        run_pipeline exReplyNone "hello" [exWriterEntity] none none none = Except.ok r := by
  refine ⟨by decide, ?_⟩
  rintro ⟨r, hr⟩
  rw [(by decide : run_pipeline exReplyNone "hello" [exWriterEntity] none none none =
    Except.error (PyErr.keyError "Supervisor"))] at hr
  exact Except.noConfusion hr

set_option maxRecDepth 8000 in
/-- C2 witness: the amended theorem applied to the empty registry. -/
theorem claim_C2_witness :
    run_pipeline exReplyNone "chat" [] none none none =
      Except.error (PyErr.keyError "Supervisor") :=
  claim_C2_theorem exReplyNone [] "chat" (by decide) (by decide) (by decide)

set_option maxRecDepth 8000 in
/-- C3 is false as stated: a padded unknown reply `" Ghost "` leads to a
raised `KeyError("Ghost")` (trimmed, so exact-match on the stripped
reply), not to a `status = error` result preserving the reply. -/
theorem claim_C3_counterexample :
    run_pipeline exReplyGhost "hello" exRegistry none none none =
      Except.error (PyErr.keyError "Ghost") ∧
    ¬ ∃ r : PipelineResult,
        run_pipeline exReplyGhost "hello" exRegistry none none none = Except.ok r := by
  refine ⟨by decide, ?_⟩
  rintro ⟨r, hr⟩
  rw [(by decide : run_pipeline exReplyGhost "hello" exRegistry none none none =
    Except.error (PyErr.keyError "Ghost"))] at hr
  exact Except.noConfusion hr

set_option maxRecDepth 8000 in
/-- C3 witness: the amended theorem applied to a concrete registry and
an unknown supervisor reply. -/
theorem claim_C3_witness :
    run_pipeline exReplyGhost "hi there" exRegistry none none none =
      Except.error (PyErr.keyError "Ghost") :=
  claim_C3_theorem exReplyGhost exRegistry "hi there" exSupMeta "Ghost"
    (by decide) (by decide) (by decide) (by decide) (by decide) (by decide)

/-- C4 is false as stated: a handler of kind `extraction_service` is
listed in the catalog built for a no-file request. -/
theorem claim_C4_counterexample :
    agent_catalog exCatalogMap = "- Extractor: Pull fields" ∧
    pyGet "Extractor" exCatalogMap =
      some { name := "Extractor", prompt := "Pull fields",
             model := "gpt-4.1-mini", agent_type := "extraction_service" } := by
  decide

/-- C4 witness: the amended theorem applied to the concrete map. -/
theorem claim_C4_witness :
    render_catalog_line ("Extractor",
        { name := "Extractor", prompt := "Pull fields",
          model := "gpt-4.1-mini", agent_type := "extraction_service" }) ∈
      (catalog_entries exCatalogMap).map render_catalog_line :=
  (claim_C4_theorem exCatalogMap).2 _ (by decide) (by decide)

/-- C5 is false as stated: a row whose model key `"no-such-model"` is
absent from `AVAILABLE_MODELS` is kept by the loader, not skipped. -/
theorem claim_C5_counterexample :
    load_agents_from_db [exGhostModelEntity] =
      [("Ghost", { name := "Ghost", prompt := "", model := "no-such-model",
                   agent_type := "llm" })] ∧
    ¬ ("no-such-model" ∈ AVAILABLE_MODELS) := by
  decide

/-- C5 witness: the amended theorem applied to a concrete row relying on
the loader defaults. -/
theorem claim_C5_witness :
    ∃ ent ∈ [exBobEntity], ent.partitionKey = some "agents" ∧
      pyIsIdentifier "Bob" = true ∧ "Bob" = pyStrip ent.rowKey ∧
      ({ name := "Bob", prompt := "hi", model := "gpt-4.1-mini",
         agent_type := "llm" } : AgentMeta) = meta_of_entity ent :=
  claim_C5_theorem [exBobEntity] "Bob" _ (by decide)

set_option maxRecDepth 8000 in
/-- C6 witness: both branches of the theorem at concrete inputs — a
confirming `" Yes "` task and a non-confirming one. -/
theorem claim_C6_witness :
    run_pipeline exSummarizer " Yes " [] (some [1]) none (some "a.pdf") =
      Except.ok { status := "success", agent := some "SummaryAgent",
                  output := some "SUMMARY of Summarize:\nTEXT" } ∧
    run_pipeline exSummarizer "hello there" [] (some [1]) none (some "a.pdf") =
      Except.ok { status := "success", agent := some "System",
                  output := some "This looks like a general document. Do you want me to extract data from it? ",
                  needs_confirmation := some true } :=
  ⟨(claim_C6_theorem exSummarizer [] " Yes " [1] "a.pdf" none
      (by decide) (by decide) (by decide)).1 (by decide),
   (claim_C6_theorem exSummarizer [] "hello there" [1] "a.pdf" none
      (by decide) (by decide) (by decide)).2 (by decide)⟩

/-- C7 witness: the theorem applied to a padded `" No "` task with a
file attached and a non-AJAX request. -/
theorem claim_C7_witness :
    index_post exReplyNone [] false " No " [{ filename := "a.pdf", bytes := [1] }] =
      WebResponse.json { status := "success", agent := some "System",
                         output := some "You have ended the chat." } 200 :=
  claim_C7_theorem exReplyNone [] false " No " [{ filename := "a.pdf", bytes := [1] }]
    (by decide)

set_option maxRecDepth 8000 in
/-- C8's N = 1 case is false as stated: a per-file `DocQA` result is
returned by the route rewrapped under agent `System` with an added
`needs_confirmation` key — a dict different from the per-file result. -/
theorem claim_C8_counterexample :
    run_pipeline exInvoiceQA "invoice" [] (some [1]) none (some "a.pdf") =
      Except.ok { status := "success", agent := some "DocQA", output := some "ANSWER" } ∧
    index_post exInvoiceQA [] true "invoice" [{ filename := "a.pdf", bytes := [1] }] =
      WebResponse.json { status := "success", agent := some "System",
                         output := some "ANSWER", needs_confirmation := some false } 200 ∧
    ({ status := "success", agent := some "System", output := some "ANSWER",
       needs_confirmation := some false } : PipelineResult) ≠
      { status := "success", agent := some "DocQA", output := some "ANSWER" } := by
  refine ⟨by decide, by decide, by decide⟩

set_option maxRecDepth 8000 in
/-- C8 witness: the amended theorem applied to a concrete two-file
upload whose constituents both request confirmation. -/
theorem claim_C8_witness :
    index_post exReplyNone [] true "hello there"
        [{ filename := "a.pdf", bytes := [1] }, { filename := "b.pdf", bytes := [2] }] =
      WebResponse.json { status := "success", agent := some "System",
                         output := some "In file a.pdf:\nThis looks like a general document. Do you want me to extract data from it? \n\n\nIn file b.pdf:\nThis looks like a general document. Do you want me to extract data from it?",
                         needs_confirmation := some true } 200 :=
  (claim_C8_theorem exReplyNone [] "hello there"
      [{ filename := "a.pdf", bytes := [1] }, { filename := "b.pdf", bytes := [2] }]
      [{ filename := "a.pdf", bytes := [1] }, { filename := "b.pdf", bytes := [2] }]
      [{ filename := "a.pdf",
         text := "This looks like a general document. Do you want me to extract data from it? ",
         needs_confirmation := true },
       { filename := "b.pdf",
         text := "This looks like a general document. Do you want me to extract data from it? ",
         needs_confirmation := true }]
      (some { status := "success", agent := some "System",
              output := some "This looks like a general document. Do you want me to extract data from it? ",
              needs_confirmation := some true })
      (by decide) (by decide) (by decide) (by decide)).2 (by decide)

set_option maxRecDepth 8000 in
/-- C9 witness: the theorem applied to a concrete invoice document with
a null-marker field, an embedded newline and two line items. -/
theorem claim_C9_witness :
    fetch_results (some { documents := [exItemsDoc] }) "prebuilt-invoice" =
      Except.ok [("VendorName", "AcmeInc"), ("Item_1_Description", "Chair"),
                 ("Item_1_Quantity", "2"), ("Item_2_UnitPrice", "5")] :=
  claim_C9_theorem exItemsDoc "prebuilt-invoice"
    ["VendorName", "VendorAddress", "VendorAddressRecipient", "CustomerName",
     "CustomerId", "CustomerAddress", "CustomerAddressRecipient", "InvoiceId",
     "InvoiceDate", "InvoiceTotal", "DueDate", "PurchaseOrder", "BillingAddress",
     "BillingAddressRecipient", "ShippingAddress", "ShippingAddressRecipient",
     "SubTotal", "TotalTax", "PreviousUnpaidBalance", "AmountDue",
     "ServiceStartDate", "ServiceEndDate", "ServiceAddress",
     "ServiceAddressRecipient", "RemittanceAddress", "RemittanceAddressRecipient"]
    ["Description", "Quantity", "Unit", "UnitPrice", "ProductCode", "Date",
     "Tax", "Amount"]
    (by decide) (by decide)

set_option maxRecDepth 8000 in
/-- C10 witness: the theorem applied with two visibly different
registries. -/
theorem claim_C10_witness :
    run_pipeline exReplyNone "hello there" exRegistry (some [1]) none (some "a.pdf") =
      run_pipeline exReplyNone "hello there" [] (some [1]) none (some "a.pdf") :=
  claim_C10_theorem exReplyNone "hello there" exRegistry [] [1] none (some "a.pdf")
    (by decide) (by decide)
